import Mathlib

/-!
Verification of the torchgeo geospatial sampling layer against its
specification.  Coordinates are modelled as exact rationals (`ℚ`); the
spec's floating-point tolerance becomes exact equality.  The sampler
implementations are not part of the excerpt's source tree (only their
test suite `tests/samplers/test_single.py` is), so the sampler
definitions below are modelled from the specification text, as marked in
their doc comments.  The PASTIS datamodule definitions are translated
directly from `torchgeo/datamodules/pastis.py`.
-/

namespace TorchGeo

/-- The `BoundingBox` entity (spec §3, §4.1): axis-aligned box over x, y and time. -/
structure BoundingBox where
  minx : ℚ
  maxx : ℚ
  miny : ℚ
  maxy : ℚ
  mint : ℚ
  maxt : ℚ
deriving DecidableEq, Repr

/-- Spec §3 invariant: min ≤ max on every axis. -/
def BoundingBox.isValid (b : BoundingBox) : Prop :=
  b.minx ≤ b.maxx ∧ b.miny ≤ b.maxy ∧ b.mint ≤ b.maxt

instance (b : BoundingBox) : Decidable b.isValid :=
  inferInstanceAs (Decidable (b.minx ≤ b.maxx ∧ b.miny ≤ b.maxy ∧ b.mint ≤ b.maxt))

/-- Spec §4.1: `area` = (maxx−minx) × (maxy−miny). -/
def BoundingBox.area (b : BoundingBox) : ℚ :=
  (b.maxx - b.minx) * (b.maxy - b.miny)

/-- Spec §4.1: `volume` = area × (maxt−mint). -/
def BoundingBox.volume (b : BoundingBox) : ℚ :=
  b.area * (b.maxt - b.mint)

/-- Spec §4.1: B is contained in A iff A.minx ≤ B.minx ≤ B.maxx ≤ A.maxx
(and analogously for y, t).  Here only the outer inequalities are
recorded; the inner ones follow from validity of `b`. -/
def BoundingBox.contains (a b : BoundingBox) : Prop :=
  a.minx ≤ b.minx ∧ b.maxx ≤ a.maxx ∧
  a.miny ≤ b.miny ∧ b.maxy ≤ a.maxy ∧
  a.mint ≤ b.mint ∧ b.maxt ≤ a.maxt

/-- Bounding box of the union of two extents (spec §3: the ROI is the
bounding box of the bounds of all entries). -/
def BoundingBox.union (a b : BoundingBox) : BoundingBox :=
  ⟨min a.minx b.minx, max a.maxx b.maxx,
   min a.miny b.miny, max a.maxy b.maxy,
   min a.mint b.mint, max a.maxt b.maxt⟩

/-- ROI of a nonempty list of index entries: bounding box of all bounds
(spec §3, §4.2). -/
def roiOf (r : BoundingBox) (rs : List BoundingBox) : BoundingBox :=
  rs.foldl BoundingBox.union r

/-- A window of normalized size `sz = (size_y, size_x)` fits inside
region `g` (spec §4.3 step 2 / §4.4: size must not exceed the region's
extent on either spatial axis). -/
def BoundingBox.fits (sz : ℚ × ℚ) (g : BoundingBox) : Prop :=
  sz.2 ≤ g.maxx - g.minx ∧ sz.1 ≤ g.maxy - g.miny

instance (sz : ℚ × ℚ) (g : BoundingBox) : Decidable (BoundingBox.fits sz g) :=
  inferInstanceAs (Decidable (sz.2 ≤ g.maxx - g.minx ∧ sz.1 ≤ g.maxy - g.miny))

/-- A Python numeric argument: an int or a float (spec §8: the five
accepted size/stride shapes distinguish ints from floats).  Floats are
modelled as exact rationals. -/
inductive PyNum where
  | int : ℤ → PyNum
  | float : ℚ → PyNum
deriving DecidableEq, Repr

/-- Numeric value of a `PyNum`. -/
def PyNum.toRat : PyNum → ℚ
  | PyNum.int n => (n : ℚ)
  | PyNum.float q => q

/-- A size or stride argument: scalar, or (height, width) pair
(spec §3, §4.3, §4.4). -/
inductive SizeParam where
  | scalar : PyNum → SizeParam
  | pair : PyNum → PyNum → SizeParam
deriving DecidableEq, Repr

/-- Modelled from the spec: the `_to_tuple` size/stride normalization of
the missing `torchgeo/samplers` module.  Spec §3: size/stride "possibly
expressed as a scalar (applied to both dims) or a pair; both are
normalized internally to 2-tuples of positive floats", ordered as
(size_y, size_x). -/
def toTuple : SizeParam → ℚ × ℚ
  | SizeParam.scalar n => (n.toRat, n.toRat)
  | SizeParam.pair a b => (a.toRat, b.toRat)

/-- Error kinds of the sampler layer (spec §7). -/
inductive SamplerError where
  | invalidBounds
  | invalidSize
  | abstractInstantiation
deriving DecidableEq, Repr

/-- Modelled from the spec: the missing `RandomGeoSampler` object state
(spec §4.3): the candidate regions (`hits`), the region of interest,
the normalized (size_y, size_x) pair and the requested `length`. -/
structure RandomGeoSampler where
  hits : List BoundingBox
  roi : BoundingBox
  size : ℚ × ℚ
  length : ℕ
deriving DecidableEq, Repr

/-- Modelled from the spec: `RandomGeoSampler.__init__` of the missing
`torchgeo/samplers/single.py` (spec §4.3, §7): validates each index
entry (`InvalidBoundsError` otherwise, spec §4.1), normalizes `size` to
a pair of positive floats, computes the ROI as the bounding box of all
entries, keeps as candidate regions the entries the window size fits
into, and fails with `InvalidSizeError` when the size exceeds the
extent of every candidate region (spec §4.3). -/
def RandomGeoSampler.create :
    List BoundingBox → SizeParam → ℕ → Except SamplerError RandomGeoSampler
  | [], _, _ => Except.error SamplerError.invalidSize
  | r :: rs, size, len =>
    let sz := toTuple size
    if ∀ g ∈ r :: rs, g.isValid then
      if 0 < sz.1 ∧ 0 < sz.2 then
        let hits := (r :: rs).filter (fun g => decide (BoundingBox.fits sz g))
        if hits.isEmpty then Except.error SamplerError.invalidSize
        else Except.ok ⟨hits, roiOf r rs, sz, len⟩
      else Except.error SamplerError.invalidSize
    else Except.error SamplerError.invalidBounds

/-- Modelled from the spec: cumulative-area weighted region selection
(spec §4.3 step 1): walk the candidate list subtracting areas until the
drawn value `s` falls inside a region's area slot. -/
def selectByArea : List BoundingBox → ℚ → Option BoundingBox
  | [], _ => none
  | g :: gs, s => if s < g.area then some g else selectByArea gs (s - g.area)

/-- Modelled from the spec: one random draw (spec §4.3 steps 1–4).
`t = (s, rx, ry)` is the consumed randomness: `s` selects the region by
cumulative area, `rx, ry ∈ [0, 1]` place the anchor uniformly in
[minx, maxx − size_x] × [miny, maxy − size_y]; the time bounds are the
full ROI time extent. -/
def RandomGeoSampler.draw (sp : RandomGeoSampler) (t : ℚ × ℚ × ℚ) :
    Option BoundingBox :=
  (selectByArea sp.hits t.1).map fun g =>
    let x := g.minx + t.2.1 * (g.maxx - sp.size.2 - g.minx)
    let y := g.miny + t.2.2 * (g.maxy - sp.size.1 - g.miny)
    ⟨x, x + sp.size.2, y, y + sp.size.1, sp.roi.mint, sp.roi.maxt⟩

/-- Modelled from the spec: `RandomGeoSampler.__iter__` (spec §4.3):
`length` draws, each consuming fresh randomness from the stream `rng`. -/
def RandomGeoSampler.iterate (sp : RandomGeoSampler) (rng : ℕ → ℚ × ℚ × ℚ) :
    List (Option BoundingBox) :=
  (List.range sp.length).map fun i => sp.draw (rng i)

/-- Modelled from the spec: number of rows of windows tiling region `g`
(spec §4.4): `rows = ceil((extent_y − size_y) / stride_y) + 1`. -/
def rowsOf (sz st : ℚ × ℚ) (g : BoundingBox) : ℕ :=
  (⌈(g.maxy - g.miny - sz.1) / st.1⌉ + 1).toNat

/-- Modelled from the spec: number of columns of windows tiling region
`g` (spec §4.4): `cols = ceil((extent_x − size_x) / stride_x) + 1`. -/
def colsOf (sz st : ℚ × ℚ) (g : BoundingBox) : ℕ :=
  (⌈(g.maxx - g.minx - sz.2) / st.2⌉ + 1).toNat

/-- Modelled from the spec: the missing `GridGeoSampler` object state
(spec §4.4): regions, ROI, normalized size and stride, and the total
window count precomputed at construction time. -/
structure GridGeoSampler where
  hits : List BoundingBox
  roi : BoundingBox
  size : ℚ × ℚ
  stride : ℚ × ℚ
  length : ℕ
deriving DecidableEq, Repr

/-- Modelled from the spec: `GridGeoSampler.__init__` of the missing
`torchgeo/samplers/single.py` (spec §4.4, §7): validates the entries,
normalizes size and stride to pairs of positive floats, fails fast with
`InvalidSizeError` when the size exceeds some region's extent (the
spec §9 recommended policy), and precomputes the total window count
`Σ rows × cols` once at construction. -/
def GridGeoSampler.create :
    List BoundingBox → SizeParam → SizeParam → Except SamplerError GridGeoSampler
  | [], _, _ => Except.error SamplerError.invalidSize
  | r :: rs, size, stride =>
    let sz := toTuple size
    let st := toTuple stride
    if ∀ g ∈ r :: rs, g.isValid then
      if 0 < sz.1 ∧ 0 < sz.2 ∧ 0 < st.1 ∧ 0 < st.2 then
        if ∀ g ∈ r :: rs, BoundingBox.fits sz g then
          Except.ok ⟨r :: rs, roiOf r rs, sz, st,
            ((r :: rs).map fun g => rowsOf sz st g * colsOf sz st g).sum⟩
        else Except.error SamplerError.invalidSize
      else Except.error SamplerError.invalidSize
    else Except.error SamplerError.invalidBounds

/-- Modelled from the spec: the grid window of region `g` at row `i`,
column `j` (spec §4.4): anchors advance by the stride, and the last
row/column's window is shifted inward so that its far edge aligns
exactly with the region's far boundary; time bounds span the full ROI
time extent. -/
def GridGeoSampler.window (sp : GridGeoSampler) (g : BoundingBox) (i j : ℕ) :
    BoundingBox :=
  let miny :=
    if i = rowsOf sp.size sp.stride g - 1 then g.maxy - sp.size.1
    else g.miny + (i : ℚ) * sp.stride.1
  let minx :=
    if j = colsOf sp.size sp.stride g - 1 then g.maxx - sp.size.2
    else g.minx + (j : ℚ) * sp.stride.2
  ⟨minx, minx + sp.size.2, miny, miny + sp.size.1, sp.roi.mint, sp.roi.maxt⟩

/-- Modelled from the spec: row-major enumeration of the windows tiling
one region (spec §4.4). -/
def GridGeoSampler.windowsOf (sp : GridGeoSampler) (g : BoundingBox) :
    List BoundingBox :=
  (List.range (rowsOf sp.size sp.stride g)).flatMap fun i =>
    (List.range (colsOf sp.size sp.stride g)).map fun j => sp.window g i j

/-- Modelled from the spec: `GridGeoSampler.__iter__` (spec §4.4):
regions in index iteration order, row-major within each region. -/
def GridGeoSampler.iterate (sp : GridGeoSampler) : List BoundingBox :=
  sp.hits.flatMap sp.windowsOf

/-- Modelled from the spec: the abstract `GeoSampler` base contract
(spec §4.2, §9): a sampler interface carries the list of required
contract hooks a concrete class has not yet implemented; instantiation
is a construction-time error while any hook is missing. -/
structure SamplerInterface where
  missingHooks : List String
deriving DecidableEq, Repr

/-- Modelled from the spec: direct construction of a sampler class
(spec §4.2, §7, §9): fails with `AbstractInstantiationError` exactly
when required contract hooks are unimplemented. -/
def instantiateSampler (c : SamplerInterface) :
    Except SamplerError SamplerInterface :=
  if c.missingHooks = [] then Except.ok c
  else Except.error SamplerError.abstractInstantiation

/-- Modelled from the spec: the abstract `GeoSampler` base (spec §4.2)
declares the iteration contract and the length contract but implements
neither. -/
def geoSamplerBase : SamplerInterface :=
  ⟨["__iter__", "__len__"]⟩

/-- The test suite's `CustomGeoSampler` subclass implements both
contract hooks (`tests/samplers/test_single.py` lines 17–26). -/
def customGeoSampler : SamplerInterface :=
  ⟨[]⟩

namespace Pastis

/-- A sample dict produced by a PASTIS dataset, as consumed by
`collate_fn` (`torchgeo/datamodules/pastis.py` lines 20–34): possible
keys are "image", "mask", "boxes", "label"; a `none` field models an
absent key.  `α` stands in for the tensor values. -/
structure Sample (α : Type) where
  image : Option α
  mask : Option α
  boxes : Option α
  label : Option α
deriving DecidableEq, Repr

/-- The collated batch dict: "image" and "mask" lists always present,
"boxes" and "label" lists present conditionally. -/
structure CollateOutput (α : Type) where
  image : List α
  mask : List α
  boxes : Option (List α)
  label : Option (List α)
deriving DecidableEq, Repr

/-- Python runtime errors `collate_fn` can raise. -/
inductive PyError where
  | indexError
  | keyError
deriving DecidableEq, Repr

/-- Python dict lookup `sample[key]`, raising `KeyError` when absent. -/
def getKey {α : Type} (o : Option α) : Except PyError α :=
  match o with
  | some v => Except.ok v
  | none => Except.error PyError.keyError

/-- The Python list comprehension `[sample[key] for sample in batch]`:
collects the key's value from every sample in order, raising `KeyError`
at the first sample where the key is absent. -/
def gatherKey {α : Type} (f : Sample α → Option α) :
    List (Sample α) → Except PyError (List α)
  | [] => Except.ok []
  | s :: t => do
    let v ← getKey (f s)
    let vs ← gatherKey f t
    Except.ok (v :: vs)

/-- The `collate_fn` of `torchgeo/datamodules/pastis.py` (lines 20–34): builds
the "image" and "mask" lists by comprehension over the batch, then
tests `"boxes" in batch[0]` (raising `IndexError` on an empty batch)
and, when it holds, also builds the "boxes" and "label" lists. -/
def collate_fn {α : Type} (batch : List (Sample α)) :
    Except PyError (CollateOutput α) := do
  let images ← gatherKey Sample.image batch
  let masks ← gatherKey Sample.mask batch
  match batch with
  | [] => Except.error PyError.indexError
  | first :: _ =>
    if first.boxes.isSome then do
      let bs ← gatherKey Sample.boxes batch
      let ls ← gatherKey Sample.label batch
      Except.ok ⟨images, masks, some bs, some ls⟩
    else
      Except.ok ⟨images, masks, none, none⟩

/-- Membership test `"k" in kwargs` on a Python keyword-argument dict, modelled as an
association list. -/
def hasKey {β : Type} (k : String) (kw : List (String × β)) : Bool :=
  kw.any fun p => p.1 == k

/-- Deletion `del kwargs["k"]`: removes the key (Python dicts hold each key at
most once; filtering removes every occurrence). -/
def delKey {β : Type} (k : String) (kw : List (String × β)) :
    List (String × β) :=
  kw.filter fun p => !(p.1 == k)

/-- Number of times key `k` is passed in an argument list. -/
def countKey {β : Type} (k : String) (kw : List (String × β)) : ℕ :=
  (kw.filter fun p => p.1 == k).length

/-- State a PASTIS datamodule constructor leaves behind: the stored
keyword arguments and whether the "folds" warning was printed. -/
structure ModuleState (β : Type) where
  kwargs : List (String × β)
  warnedFolds : Bool
deriving DecidableEq, Repr

/-- The constructor `PASTISDataModule.__init__` (`torchgeo/datamodules/pastis.py` lines
105–107): prints a warning when "folds" is among the kwargs but does
not remove it, then delegates to the base constructor.
Modelled from the spec: the base `NonGeoDataModule.__init__`
(`torchgeo/datamodules/geo.py`, absent from the excerpt) stores the
delegated kwargs unchanged for later dataset construction, as `setup`
reads them back via `self.kwargs`. -/
def pastisDataModuleInit {β : Type} (kwargs : List (String × β)) :
    ModuleState β :=
  ⟨kwargs, hasKey "folds" kwargs⟩

/-- The constructor `PASTISInstanceSegmentationDataModule.__init__`
(`torchgeo/datamodules/pastis.py` lines 153–159): when "folds" is among
the kwargs it warns and deletes the key before delegating to
`PASTISDataModule.__init__`. -/
def pastisInstanceSegmentationInit {β : Type} (kwargs : List (String × β)) :
    ModuleState β :=
  if hasKey "folds" kwargs then pastisDataModuleInit (delKey "folds" kwargs)
  else pastisDataModuleInit kwargs

/-- The argument list of one dataset construction in `setup`
(`torchgeo/datamodules/pastis.py` lines 169–177):
`PASTISInstanceSegmentation(**self.kwargs, folds=...)`. -/
def setupDatasetArgs {β : Type} (st : ModuleState β) (folds : β) :
    List (String × β) :=
  st.kwargs ++ [("folds", folds)]

end Pastis

/-! ## Concrete scenario from the test fixtures
(`tests/samplers/test_single.py` lines 73–75, 117–119; spec §8):
two identical index entries spanning (0,10) × (20,30) × (40,50). -/

/-- The index entry used by both test fixtures. -/
def demoBox : BoundingBox := ⟨0, 10, 20, 30, 40, 50⟩

/-- The two (identical) index entries of the test fixtures. -/
def demoRegions : List BoundingBox := [demoBox, demoBox]

/-- A constant random stream: every draw uses (1/2, 1/2, 1/2). -/
def demoRng : ℕ → ℚ × ℚ × ℚ := fun _ => (1/2, 1/2, 1/2)

/-- The sampler `RandomGeoSampler(index, size=3, length=10)` of the
test fixture, as built by `RandomGeoSampler.create`. -/
def demoRandom : RandomGeoSampler := ⟨[demoBox, demoBox], demoBox, (3, 3), 10⟩

/-- The box drawn by `demoRandom` with randomness (1/2, 1/2, 1/2). -/
def demoRandomBox : BoundingBox := ⟨7/2, 13/2, 47/2, 53/2, 40, 50⟩

/-- The sampler `GridGeoSampler(index, size=(8,6), stride=(1,2))` of the
test fixture: each 10×10 region tiles into 3 rows × 3 cols of windows,
18 windows in total. -/
def demoGrid : GridGeoSampler := ⟨[demoBox, demoBox], demoBox, (8, 6), (1, 2), 18⟩

/-- The first window `demoGrid` yields (row 0, column 0 of region 0). -/
def demoGridBox : BoundingBox := ⟨0, 6, 20, 28, 40, 50⟩

/-! ## Helper lemmas -/

theorem BoundingBox.contains_refl (a : BoundingBox) : a.contains a :=
  ⟨le_refl _, le_refl _, le_refl _, le_refl _, le_refl _, le_refl _⟩

theorem BoundingBox.contains_trans {a b c : BoundingBox}
    (h1 : a.contains b) (h2 : b.contains c) : a.contains c :=
  ⟨le_trans h1.1 h2.1, le_trans h2.2.1 h1.2.1,
   le_trans h1.2.2.1 h2.2.2.1, le_trans h2.2.2.2.1 h1.2.2.2.1,
   le_trans h1.2.2.2.2.1 h2.2.2.2.2.1, le_trans h2.2.2.2.2.2 h1.2.2.2.2.2⟩

theorem BoundingBox.union_contains_left (a b : BoundingBox) :
    (a.union b).contains a :=
  ⟨min_le_left _ _, le_max_left _ _, min_le_left _ _, le_max_left _ _,
   min_le_left _ _, le_max_left _ _⟩

theorem BoundingBox.union_contains_right (a b : BoundingBox) :
    (a.union b).contains b :=
  ⟨min_le_right _ _, le_max_right _ _, min_le_right _ _, le_max_right _ _,
   min_le_right _ _, le_max_right _ _⟩

theorem BoundingBox.union_isValid {a b : BoundingBox}
    (ha : a.isValid) : (a.union b).isValid := by
  refine ⟨?_, ?_, ?_⟩
  · exact le_trans (min_le_left _ _) (le_trans ha.1 (le_max_left _ _))
  · exact le_trans (min_le_left _ _) (le_trans ha.2.1 (le_max_left _ _))
  · exact le_trans (min_le_left _ _) (le_trans ha.2.2 (le_max_left _ _))

theorem roiOf_contains_init (r : BoundingBox) (rs : List BoundingBox) :
    (roiOf r rs).contains r := by
  induction rs generalizing r with
  | nil => exact BoundingBox.contains_refl r
  | cons a as ih =>
    exact BoundingBox.contains_trans (ih (r.union a))
      (BoundingBox.union_contains_left r a)

theorem roiOf_contains_mem (rs : List BoundingBox) :
    ∀ r g : BoundingBox, g ∈ r :: rs → (roiOf r rs).contains g := by
  induction rs with
  | nil =>
    intro r g h
    rw [List.mem_singleton] at h
    subst h
    exact BoundingBox.contains_refl g
  | cons a as ih =>
    intro r g h
    rcases List.mem_cons.mp h with h | h
    · subst h
      exact roiOf_contains_init g (a :: as)
    · rcases List.mem_cons.mp h with h | h
      · subst h
        exact BoundingBox.contains_trans (roiOf_contains_init (r.union g) as)
          (BoundingBox.union_contains_right r g)
      · exact ih (r.union a) g (List.mem_cons_of_mem _ h)

theorem roiOf_isValid (rs : List BoundingBox) :
    ∀ r : BoundingBox, (∀ g ∈ r :: rs, g.isValid) → (roiOf r rs).isValid := by
  induction rs with
  | nil => intro r h; exact h r (List.mem_cons_self _ _)
  | cons a as ih =>
    intro r h
    refine ih (r.union a) ?_
    intro g hg
    rcases List.mem_cons.mp hg with hg | hg
    · subst hg
      exact BoundingBox.union_isValid (h _ (List.mem_cons_self _ _))
    · exact h g (List.mem_cons_of_mem _ (List.mem_cons_of_mem _ hg))

theorem selectByArea_mem {l : List BoundingBox} {s : ℚ} {g : BoundingBox}
    (h : selectByArea l s = some g) : g ∈ l := by
  induction l generalizing s with
  | nil => simp [selectByArea] at h
  | cons a as ih =>
    unfold selectByArea at h
    split at h
    · cases h; exact List.mem_cons_self _ _
    · exact List.mem_cons_of_mem _ (ih h)

theorem RandomGeoSampler.create_ok_random {regions : List BoundingBox}
    {size : SizeParam} {len : ℕ} {sp : RandomGeoSampler}
    (h : RandomGeoSampler.create regions size len = Except.ok sp) :
    sp.size = toTuple size ∧ sp.length = len ∧
    0 < sp.size.1 ∧ 0 < sp.size.2 ∧ sp.roi.isValid ∧
    ∀ g ∈ sp.hits, g.isValid ∧ sp.roi.contains g ∧ BoundingBox.fits sp.size g := by
  match regions with
  | [] => simp [RandomGeoSampler.create] at h
  | r :: rs =>
    simp only [RandomGeoSampler.create] at h
    split_ifs at h with hval hpos hempty
    simp only [Except.ok.injEq] at h
    subst h
    refine ⟨rfl, rfl, hpos.1, hpos.2, roiOf_isValid rs r hval, ?_⟩
    intro g hg
    rw [List.mem_filter] at hg
    exact ⟨hval g hg.1, roiOf_contains_mem rs r g hg.1, of_decide_eq_true hg.2⟩

theorem GridGeoSampler.create_ok_grid {regions : List BoundingBox}
    {size stride : SizeParam} {sp : GridGeoSampler}
    (h : GridGeoSampler.create regions size stride = Except.ok sp) :
    sp.size = toTuple size ∧ sp.stride = toTuple stride ∧ sp.hits = regions ∧
    sp.length =
      (sp.hits.map fun g =>
        rowsOf sp.size sp.stride g * colsOf sp.size sp.stride g).sum ∧
    0 < sp.size.1 ∧ 0 < sp.size.2 ∧ 0 < sp.stride.1 ∧ 0 < sp.stride.2 ∧
    sp.roi.isValid ∧
    ∀ g ∈ sp.hits, g.isValid ∧ sp.roi.contains g ∧ BoundingBox.fits sp.size g := by
  match regions with
  | [] => simp [GridGeoSampler.create] at h
  | r :: rs =>
    simp only [GridGeoSampler.create] at h
    split_ifs at h with hval hpos hfits
    simp only [Except.ok.injEq] at h
    subst h
    refine ⟨rfl, rfl, rfl, rfl, hpos.1, hpos.2.1, hpos.2.2.1, hpos.2.2.2,
      roiOf_isValid rs r hval, ?_⟩
    intro g hg
    exact ⟨hval g hg, roiOf_contains_mem rs r g hg, hfits g hg⟩

theorem flatMap_getElem? {α β : Type} (f : α → List β) :
    ∀ (l : List α) (r : ℕ) (g : α), l[r]? = some g → ∀ k : ℕ,
      k < (f g).length →
      (l.flatMap f)[((l.take r).map fun a => (f a).length).sum + k]? = (f g)[k]?
  | [], r, g, hg => by simp at hg
  | a :: t, 0, g, hg => by
    intro k hk
    have ha : a = g := by simpa using hg
    subst ha
    simp only [List.take_zero, List.map_nil, List.sum_nil, Nat.zero_add,
      List.flatMap_cons]
    exact List.getElem?_append_left hk
  | a :: t, r + 1, g, hg => by
    intro k hk
    have hg' : t[r]? = some g := by simpa using hg
    have hrec := flatMap_getElem? f t r g hg' k hk
    simp only [List.take_succ_cons, List.map_cons, List.sum_cons,
      List.flatMap_cons]
    rw [Nat.add_assoc, List.getElem?_append_right (Nat.le_add_right _ _),
      Nat.add_sub_cancel_left]
    exact hrec

theorem sum_map_const_range (n c : ℕ) :
    ((List.range n).map fun _ => c).sum = n * c := by
  induction n with
  | zero => simp
  | succ m ih => rw [List.range_succ]; simp [ih, Nat.succ_mul]

theorem GridGeoSampler.windowsOf_length (sp : GridGeoSampler)
    (g : BoundingBox) :
    (sp.windowsOf g).length =
      rowsOf sp.size sp.stride g * colsOf sp.size sp.stride g := by
  unfold GridGeoSampler.windowsOf
  rw [List.length_flatMap]
  simp only [Function.comp_def, List.length_map, List.length_range]
  exact sum_map_const_range _ _

theorem GridGeoSampler.iterate_length_grid (sp : GridGeoSampler) :
    sp.iterate.length =
      (sp.hits.map fun g =>
        rowsOf sp.size sp.stride g * colsOf sp.size sp.stride g).sum := by
  unfold GridGeoSampler.iterate
  rw [List.length_flatMap]
  refine congrArg List.sum ?_
  refine List.map_congr_left ?_
  intro g _
  exact sp.windowsOf_length g

theorem GridGeoSampler.windowsOf_getElem? (sp : GridGeoSampler)
    (g : BoundingBox) {i j : ℕ} (hi : i < rowsOf sp.size sp.stride g)
    (hj : j < colsOf sp.size sp.stride g) :
    (sp.windowsOf g)[i * colsOf sp.size sp.stride g + j]? =
      some (sp.window g i j) := by
  unfold GridGeoSampler.windowsOf
  have h1 : (List.range (rowsOf sp.size sp.stride g))[i]? = some i :=
    List.getElem?_range hi
  have h2 :=
    flatMap_getElem?
      (fun i => (List.range (colsOf sp.size sp.stride g)).map fun j =>
        sp.window g i j)
      (List.range (rowsOf sp.size sp.stride g)) i i h1 j
      (by simpa using hj)
  simp only [List.take_range, List.length_map, List.length_range,
    min_eq_left hi.le] at h2
  rw [sum_map_const_range] at h2
  rw [h2, List.getElem?_map, List.getElem?_range hj]
  rfl

theorem GridGeoSampler.iterate_getElem? (sp : GridGeoSampler) {r : ℕ}
    {g : BoundingBox} (hg : sp.hits[r]? = some g) {i j : ℕ}
    (hi : i < rowsOf sp.size sp.stride g)
    (hj : j < colsOf sp.size sp.stride g) :
    sp.iterate[((sp.hits.take r).map fun a =>
        rowsOf sp.size sp.stride a * colsOf sp.size sp.stride a).sum +
      (i * colsOf sp.size sp.stride g + j)]? = some (sp.window g i j) := by
  unfold GridGeoSampler.iterate
  have hk : i * colsOf sp.size sp.stride g + j < (sp.windowsOf g).length := by
    rw [sp.windowsOf_length g]
    have h1 : i * colsOf sp.size sp.stride g + j <
        (i + 1) * colsOf sp.size sp.stride g := by
      rw [Nat.succ_mul]; omega
    exact lt_of_lt_of_le h1 (Nat.mul_le_mul_right _ hi)
  have h2 := flatMap_getElem? sp.windowsOf sp.hits r g hg _ hk
  have h3 : ((sp.hits.take r).map fun a => (sp.windowsOf a).length) =
      (sp.hits.take r).map fun a =>
        rowsOf sp.size sp.stride a * colsOf sp.size sp.stride a :=
    List.map_congr_left fun a _ => sp.windowsOf_length a
  rw [h3] at h2
  rw [h2]
  exact sp.windowsOf_getElem? g hi hj

theorem GridGeoSampler.mem_iterate_grid {sp : GridGeoSampler} {q : BoundingBox}
    (h : q ∈ sp.iterate) :
    ∃ g ∈ sp.hits, ∃ i j : ℕ, i < rowsOf sp.size sp.stride g ∧
      j < colsOf sp.size sp.stride g ∧ q = sp.window g i j := by
  unfold GridGeoSampler.iterate at h
  rw [List.mem_flatMap] at h
  obtain ⟨g, hgmem, hq⟩ := h
  unfold GridGeoSampler.windowsOf at hq
  rw [List.mem_flatMap] at hq
  obtain ⟨i, hi, hq⟩ := hq
  rw [List.mem_map] at hq
  obtain ⟨j, hj, rfl⟩ := hq
  exact ⟨g, hgmem, i, j, List.mem_range.mp hi, List.mem_range.mp hj, rfl⟩

theorem RandomGeoSampler.mem_iterate_random {sp : RandomGeoSampler}
    {rng : ℕ → ℚ × ℚ × ℚ} {q : BoundingBox}
    (h : some q ∈ sp.iterate rng) :
    ∃ i : ℕ, i < sp.length ∧ sp.draw (rng i) = some q := by
  unfold RandomGeoSampler.iterate at h
  rw [List.mem_map] at h
  obtain ⟨i, hi, hdraw⟩ := h
  exact ⟨i, List.mem_range.mp hi, hdraw⟩

theorem RandomGeoSampler.draw_eq_some {sp : RandomGeoSampler}
    {t : ℚ × ℚ × ℚ} {q : BoundingBox} (h : sp.draw t = some q) :
    ∃ g ∈ sp.hits,
      q = ⟨g.minx + t.2.1 * (g.maxx - sp.size.2 - g.minx),
           g.minx + t.2.1 * (g.maxx - sp.size.2 - g.minx) + sp.size.2,
           g.miny + t.2.2 * (g.maxy - sp.size.1 - g.miny),
           g.miny + t.2.2 * (g.maxy - sp.size.1 - g.miny) + sp.size.1,
           sp.roi.mint, sp.roi.maxt⟩ := by
  unfold RandomGeoSampler.draw at h
  rw [Option.map_eq_some'] at h
  obtain ⟨g, hsel, hfq⟩ := h
  exact ⟨g, selectByArea_mem hsel, hfq.symm⟩

theorem RandomGeoSampler.iterate_length_random (sp : RandomGeoSampler)
    (rng : ℕ → ℚ × ℚ × ℚ) : (sp.iterate rng).length = sp.length := by
  unfold RandomGeoSampler.iterate
  rw [List.length_map, List.length_range]

namespace Pastis

theorem except_bind_ok {ε α β : Type} (a : α) (f : α → Except ε β) :
    (Except.ok a >>= f : Except ε β) = f a := rfl

theorem gatherKey_eq_ok {α : Type} (f : Sample α → Option α) :
    ∀ (l : List (Sample α)) (v : List α), v.map some = l.map f →
      gatherKey f l = Except.ok v := by
  intro l
  induction l with
  | nil =>
    intro v hv
    cases v with
    | nil => rfl
    | cons a v => simp at hv
  | cons s t ih =>
    intro v hv
    cases v with
    | nil => simp at hv
    | cons a v =>
      simp only [List.map_cons, List.cons.injEq] at hv
      simp only [gatherKey, ← hv.1, getKey, ih v hv.2, except_bind_ok]

end Pastis

/-! ## Evaluation lemmas for the concrete test scenario -/

theorem demo_rowsOf : rowsOf (8, 6) (1, 2) ⟨0, 10, 20, 30, 40, 50⟩ = 3 := by
  simp only [rowsOf]
  norm_num
  rfl

theorem demo_colsOf : colsOf (8, 6) (1, 2) ⟨0, 10, 20, 30, 40, 50⟩ = 3 := by
  simp only [colsOf]
  norm_num
  rfl

theorem demoRandom_create :
    RandomGeoSampler.create demoRegions (SizeParam.scalar (PyNum.int 3)) 10 =
      Except.ok demoRandom := by
  norm_num [RandomGeoSampler.create, demoRegions, demoRandom, demoBox,
    toTuple, PyNum.toRat, BoundingBox.isValid, BoundingBox.fits,
    List.filter, roiOf, BoundingBox.union]

theorem demoRandom_mem : some demoRandomBox ∈ demoRandom.iterate demoRng := by
  have hdraw : demoRandom.draw (demoRng 0) = some demoRandomBox := by
    norm_num [RandomGeoSampler.draw, selectByArea, demoRandom, demoBox,
      demoRandomBox, demoRng, BoundingBox.area]
  have h0 : (0 : ℕ) ∈ List.range demoRandom.length := by
    norm_num [demoRandom]
  show some demoRandomBox ∈
    (List.range demoRandom.length).map fun i => demoRandom.draw (demoRng i)
  rw [List.mem_map]
  exact ⟨0, h0, hdraw⟩

theorem demoGrid_create :
    GridGeoSampler.create demoRegions
      (SizeParam.pair (PyNum.int 8) (PyNum.int 6))
      (SizeParam.pair (PyNum.int 1) (PyNum.int 2)) = Except.ok demoGrid := by
  norm_num [GridGeoSampler.create, demoRegions, demoGrid, demoBox, toTuple,
    PyNum.toRat, BoundingBox.isValid, BoundingBox.fits, roiOf,
    BoundingBox.union, demo_rowsOf, demo_colsOf]

theorem demoGridBox_window : demoGrid.window demoBox 0 0 = demoGridBox := by
  norm_num [GridGeoSampler.window, demoGrid, demoBox, demoGridBox,
    demo_rowsOf, demo_colsOf]

theorem demoGridBox_mem : demoGridBox ∈ demoGrid.iterate := by
  show demoGridBox ∈ demoGrid.hits.flatMap demoGrid.windowsOf
  rw [List.mem_flatMap]
  refine ⟨demoBox, by simp [demoGrid], ?_⟩
  show demoGridBox ∈
    (List.range (rowsOf demoGrid.size demoGrid.stride demoBox)).flatMap
      fun i => (List.range (colsOf demoGrid.size demoGrid.stride demoBox)).map
        fun j => demoGrid.window demoBox i j
  rw [List.mem_flatMap]
  refine ⟨0, ?_, ?_⟩
  · show (0 : ℕ) ∈ List.range (rowsOf demoGrid.size demoGrid.stride demoBox)
    rw [List.mem_range]
    norm_num [demoGrid, demoBox, demo_rowsOf]
  · rw [List.mem_map]
    refine ⟨0, ?_, ?_⟩
    · rw [List.mem_range]
      norm_num [demoGrid, demoBox, demo_colsOf]
    · exact demoGridBox_window

/-! ## Claim theorems -/

/-- C1: For every box yielded by iterating a RandomGeoSampler, the box
lies entirely inside the sampler's region of interest on all three
axes: roi.minx ≤ query.minx ≤ query.maxx ≤ roi.maxx,
roi.miny ≤ query.miny ≤ query.maxy ≤ roi.maxy, and
roi.mint ≤ query.mint ≤ query.maxt ≤ roi.maxt. -/
theorem randomSampler_yields_within_roi
    (regions : List BoundingBox) (size : SizeParam) (len : ℕ)
    (sp : RandomGeoSampler) (rng : ℕ → ℚ × ℚ × ℚ)
    (hc : RandomGeoSampler.create regions size len = Except.ok sp)
    (hrng : ∀ i, 0 ≤ (rng i).2.1 ∧ (rng i).2.1 ≤ 1 ∧
      0 ≤ (rng i).2.2 ∧ (rng i).2.2 ≤ 1)
    (q : BoundingBox) (hq : some q ∈ sp.iterate rng) :
    sp.roi.minx ≤ q.minx ∧ q.minx ≤ q.maxx ∧ q.maxx ≤ sp.roi.maxx ∧
    sp.roi.miny ≤ q.miny ∧ q.miny ≤ q.maxy ∧ q.maxy ≤ sp.roi.maxy ∧
    sp.roi.mint ≤ q.mint ∧ q.mint ≤ q.maxt ∧ q.maxt ≤ sp.roi.maxt := by
  obtain ⟨-, -, hpos1, hpos2, hroiv, hhits⟩ := RandomGeoSampler.create_ok_random hc
  obtain ⟨i, -, hdraw⟩ := RandomGeoSampler.mem_iterate_random hq
  obtain ⟨g, hgmem, rfl⟩ := RandomGeoSampler.draw_eq_some hdraw
  obtain ⟨-, hgcont, hfitx, hfity⟩ := hhits g hgmem
  obtain ⟨hrx0, hrx1, hry0, hry1⟩ := hrng i
  obtain ⟨c1, c2, c3, c4, c5, c6⟩ := hgcont
  have hcx : (0 : ℚ) ≤ g.maxx - sp.size.2 - g.minx := by linarith
  have hcy : (0 : ℚ) ≤ g.maxy - sp.size.1 - g.miny := by linarith
  have hx0 : 0 ≤ (rng i).2.1 * (g.maxx - sp.size.2 - g.minx) :=
    mul_nonneg hrx0 hcx
  have hy0 : 0 ≤ (rng i).2.2 * (g.maxy - sp.size.1 - g.miny) :=
    mul_nonneg hry0 hcy
  have hx1 : (rng i).2.1 * (g.maxx - sp.size.2 - g.minx) ≤
      g.maxx - sp.size.2 - g.minx := by nlinarith
  have hy1 : (rng i).2.2 * (g.maxy - sp.size.1 - g.miny) ≤
      g.maxy - sp.size.1 - g.miny := by nlinarith
  obtain ⟨hv1, hv2, hv3⟩ := hroiv
  dsimp only
  refine ⟨by linarith, by linarith, by linarith, by linarith, by linarith,
    by linarith, le_refl _, hv3, le_refl _⟩

/-- Witness for C1: the fixture sampler RandomGeoSampler(index, size=3,
length=10) with randomness (1/2, 1/2, 1/2) yields the box
(3.5, 6.5) × (23.5, 26.5) × (40, 50), inside the ROI
(0, 10) × (20, 30) × (40, 50). -/
theorem randomSampler_yields_within_roi_witness :
    demoRandom.roi.minx ≤ demoRandomBox.minx ∧
    demoRandomBox.minx ≤ demoRandomBox.maxx ∧
    demoRandomBox.maxx ≤ demoRandom.roi.maxx ∧
    demoRandom.roi.miny ≤ demoRandomBox.miny ∧
    demoRandomBox.miny ≤ demoRandomBox.maxy ∧
    demoRandomBox.maxy ≤ demoRandom.roi.maxy ∧
    demoRandom.roi.mint ≤ demoRandomBox.mint ∧
    demoRandomBox.mint ≤ demoRandomBox.maxt ∧
    demoRandomBox.maxt ≤ demoRandom.roi.maxt :=
  randomSampler_yields_within_roi demoRegions
    (SizeParam.scalar (PyNum.int 3)) 10 demoRandom demoRng demoRandom_create
    (by intro i; norm_num [demoRng]) demoRandomBox demoRandom_mem

/-- C2: For every box yielded by a RandomGeoSampler or a GridGeoSampler
constructed with normalized size (size_y, size_x), the box's spatial
extents equal the requested size: query.maxx − query.minx == size_x and
query.maxy − query.miny == size_y (exactly, in ℚ), for every accepted
size parameter shape. -/
theorem sampler_window_size_matches :
    (∀ (regions : List BoundingBox) (size : SizeParam) (len : ℕ)
       (sp : RandomGeoSampler) (rng : ℕ → ℚ × ℚ × ℚ) (q : BoundingBox),
       RandomGeoSampler.create regions size len = Except.ok sp →
       some q ∈ sp.iterate rng →
       q.maxx - q.minx = (toTuple size).2 ∧ q.maxy - q.miny = (toTuple size).1)
    ∧ (∀ (regions : List BoundingBox) (size stride : SizeParam)
       (sp : GridGeoSampler) (q : BoundingBox),
       GridGeoSampler.create regions size stride = Except.ok sp →
       q ∈ sp.iterate →
       q.maxx - q.minx = (toTuple size).2 ∧
       q.maxy - q.miny = (toTuple size).1) := by
  constructor
  · intro regions size len sp rng q hc hq
    obtain ⟨szeq, -, -, -, -, -⟩ := RandomGeoSampler.create_ok_random hc
    obtain ⟨i, -, hdraw⟩ := RandomGeoSampler.mem_iterate_random hq
    obtain ⟨g, -, rfl⟩ := RandomGeoSampler.draw_eq_some hdraw
    rw [← szeq]
    constructor <;> dsimp only <;> ring
  · intro regions size stride sp q hc hq
    obtain ⟨szeq, -, -, -, -⟩ := GridGeoSampler.create_ok_grid hc
    obtain ⟨g, -, i, j, hi, hj, rfl⟩ := GridGeoSampler.mem_iterate_grid hq
    rw [← szeq]
    simp only [GridGeoSampler.window]
    constructor <;> ring

/-- Witness for C2: the fixture random sampler's box (3.5, 6.5) ×
(23.5, 26.5) is 3 × 3; the fixture grid sampler's first window
(0, 6) × (20, 28) is 6 wide and 8 tall, as requested. -/
theorem sampler_window_size_matches_witness :
    (demoRandomBox.maxx - demoRandomBox.minx =
       (toTuple (SizeParam.scalar (PyNum.int 3))).2 ∧
     demoRandomBox.maxy - demoRandomBox.miny =
       (toTuple (SizeParam.scalar (PyNum.int 3))).1) ∧
    (demoGridBox.maxx - demoGridBox.minx =
       (toTuple (SizeParam.pair (PyNum.int 8) (PyNum.int 6))).2 ∧
     demoGridBox.maxy - demoGridBox.miny =
       (toTuple (SizeParam.pair (PyNum.int 8) (PyNum.int 6))).1) :=
  ⟨sampler_window_size_matches.1 demoRegions
     (SizeParam.scalar (PyNum.int 3)) 10 demoRandom demoRng demoRandomBox
     demoRandom_create demoRandom_mem,
   sampler_window_size_matches.2 demoRegions
     (SizeParam.pair (PyNum.int 8) (PyNum.int 6))
     (SizeParam.pair (PyNum.int 1) (PyNum.int 2)) demoGrid demoGridBox
     demoGrid_create demoGridBox_mem⟩

/-- C3: len of a GridGeoSampler equals the sum over all regions of
rows × cols, where rows = ceil((extent_y − size_y) / stride_y) + 1 and
cols = ceil((extent_x − size_x) / stride_x) + 1; the total is the value
stored at construction time, and it equals the number of boxes a full
iteration yields. -/
theorem gridSampler_len_rows_cols
    (regions : List BoundingBox) (size stride : SizeParam)
    (sp : GridGeoSampler)
    (hc : GridGeoSampler.create regions size stride = Except.ok sp) :
    sp.length = (sp.hits.map fun g =>
      rowsOf sp.size sp.stride g * colsOf sp.size sp.stride g).sum ∧
    sp.iterate.length = sp.length := by
  obtain ⟨-, -, -, hlen, -⟩ := GridGeoSampler.create_ok_grid hc
  exact ⟨hlen, by rw [GridGeoSampler.iterate_length_grid sp, hlen]⟩

/-- Witness for C3: the fixture GridGeoSampler(index, size=(8,6),
stride=(1,2)) has stored length 18 = 3·3 + 3·3, matching a full
iteration. -/
theorem gridSampler_len_rows_cols_witness :
    demoGrid.length = (demoGrid.hits.map fun g =>
      rowsOf demoGrid.size demoGrid.stride g *
        colsOf demoGrid.size demoGrid.stride g).sum ∧
    demoGrid.iterate.length = demoGrid.length :=
  gridSampler_len_rows_cols demoRegions
    (SizeParam.pair (PyNum.int 8) (PyNum.int 6))
    (SizeParam.pair (PyNum.int 1) (PyNum.int 2)) demoGrid demoGrid_create

/-- C4: For every positive integer L and any size parameter,
len(RandomGeoSampler(index, size, length=L)) == L exactly, independent
of how many distinct window positions are geometrically possible
(sampling is with replacement): the stored length is L and a full pass
yields exactly L draws. -/
theorem randomSampler_len_eq_length
    (regions : List BoundingBox) (size : SizeParam) (len : ℕ)
    (_hpos : 0 < len) (sp : RandomGeoSampler) (rng : ℕ → ℚ × ℚ × ℚ)
    (hc : RandomGeoSampler.create regions size len = Except.ok sp) :
    sp.length = len ∧ (sp.iterate rng).length = len := by
  obtain ⟨-, hlen, -⟩ := RandomGeoSampler.create_ok_random hc
  exact ⟨hlen, by rw [RandomGeoSampler.iterate_length_random sp rng, hlen]⟩

/-- Witness for C4: the fixture RandomGeoSampler(index, size=3,
length=10) has length 10 and yields 10 draws per pass. -/
theorem randomSampler_len_eq_length_witness :
    demoRandom.length = 10 ∧ (demoRandom.iterate demoRng).length = 10 :=
  randomSampler_len_eq_length demoRegions (SizeParam.scalar (PyNum.int 3))
    10 (by norm_num) demoRandom demoRng demoRandom_create

/-- C5: Every box yielded by either sampler (Random or Grid) spans the
full temporal extent of the region of interest:
query.maxt − query.mint == roi.maxt − roi.mint; the temporal dimension
is never windowed. -/
theorem sampler_full_time_extent :
    (∀ (sp : RandomGeoSampler) (rng : ℕ → ℚ × ℚ × ℚ) (q : BoundingBox),
       some q ∈ sp.iterate rng →
       q.maxt - q.mint = sp.roi.maxt - sp.roi.mint)
    ∧ (∀ (sp : GridGeoSampler) (q : BoundingBox), q ∈ sp.iterate →
       q.maxt - q.mint = sp.roi.maxt - sp.roi.mint) := by
  constructor
  · intro sp rng q hq
    obtain ⟨i, -, hdraw⟩ := RandomGeoSampler.mem_iterate_random hq
    obtain ⟨g, -, rfl⟩ := RandomGeoSampler.draw_eq_some hdraw
    rfl
  · intro sp q hq
    obtain ⟨g, -, i, j, -, -, rfl⟩ := GridGeoSampler.mem_iterate_grid hq
    simp only [GridGeoSampler.window]

/-- Witness for C5: the fixture random box spans (40, 50), the full ROI
time extent, and so does the fixture grid window. -/
theorem sampler_full_time_extent_witness :
    demoRandomBox.maxt - demoRandomBox.mint =
      demoRandom.roi.maxt - demoRandom.roi.mint ∧
    demoGridBox.maxt - demoGridBox.mint =
      demoGrid.roi.maxt - demoGrid.roi.mint :=
  ⟨sampler_full_time_extent.1 demoRandom demoRng demoRandomBox
     demoRandom_mem,
   sampler_full_time_extent.2 demoGrid demoGridBox demoGridBox_mem⟩

/-- C6: GridGeoSampler enumeration is deterministic and yields the same
sequence on every pass: in the embedding `GridGeoSampler.iterate` is a
pure function of the constructed sampler (it consumes no random
stream), so re-iteration is literally the same list.  This theorem pins
the order down: the element at flat position
(Σ_{regions before r} rows·cols) + i·cols + j is exactly the window of
region r at row i, column j — row-major within each region, regions in
index iteration order. -/
theorem gridSampler_deterministic_row_major
    (regions : List BoundingBox) (size stride : SizeParam)
    (sp : GridGeoSampler)
    (hc : GridGeoSampler.create regions size stride = Except.ok sp)
    {r : ℕ} {g : BoundingBox} (hg : regions[r]? = some g) {i j : ℕ}
    (hi : i < rowsOf sp.size sp.stride g)
    (hj : j < colsOf sp.size sp.stride g) :
    sp.iterate[((regions.take r).map fun a =>
        rowsOf sp.size sp.stride a * colsOf sp.size sp.stride a).sum +
      (i * colsOf sp.size sp.stride g + j)]? = some (sp.window g i j) := by
  obtain ⟨-, -, hhits, -⟩ := GridGeoSampler.create_ok_grid hc
  rw [← hhits] at hg ⊢
  exact sp.iterate_getElem? hg hi hj

/-- Witness for C6: in the fixture grid sampler, the window at flat
position 9 + 1·3 + 2 = 14 is row 1, column 2 of the second region. -/
theorem gridSampler_deterministic_row_major_witness :
    demoGrid.iterate[((demoRegions.take 1).map fun a =>
        rowsOf demoGrid.size demoGrid.stride a *
          colsOf demoGrid.size demoGrid.stride a).sum +
      (1 * colsOf demoGrid.size demoGrid.stride demoBox + 2)]? =
      some (demoGrid.window demoBox 1 2) :=
  gridSampler_deterministic_row_major demoRegions
    (SizeParam.pair (PyNum.int 8) (PyNum.int 6))
    (SizeParam.pair (PyNum.int 1) (PyNum.int 2)) demoGrid demoGrid_create
    (by norm_num [demoRegions])
    (by norm_num [demoGrid, demoBox, demo_rowsOf])
    (by norm_num [demoGrid, demoBox, demo_colsOf])

/-- C7: The size (and stride) parameter accepted in any of the five
forms — scalar int, scalar float, (int,int) pair, (float,int) mixed
pair, (int,float) mixed pair — normalizes to the same pair of floats
and yields identical window geometry from the sampler; in particular a
scalar applies to both spatial dimensions.  The last conjunct varies
both slots at once: parameters with equal normalizations, in the size
slot and in the stride slot, give identical constructed samplers and
hence identical geometry. -/
theorem sizeParam_five_forms_equivalent :
    (∀ y x : ℤ,
       toTuple (SizeParam.pair (PyNum.int y) (PyNum.int x)) =
         ((y : ℚ), (x : ℚ)) ∧
       toTuple (SizeParam.pair (PyNum.float (y : ℚ)) (PyNum.int x)) =
         ((y : ℚ), (x : ℚ)) ∧
       toTuple (SizeParam.pair (PyNum.int y) (PyNum.float (x : ℚ))) =
         ((y : ℚ), (x : ℚ))) ∧
    (∀ n : ℤ,
       toTuple (SizeParam.scalar (PyNum.int n)) = ((n : ℚ), (n : ℚ)) ∧
       toTuple (SizeParam.scalar (PyNum.float (n : ℚ))) =
         ((n : ℚ), (n : ℚ))) ∧
    (∀ s1 s2 : SizeParam, toTuple s1 = toTuple s2 →
       ∀ st1 st2 : SizeParam, toTuple st1 = toTuple st2 →
       ∀ (regions : List BoundingBox) (len : ℕ),
       RandomGeoSampler.create regions s1 len =
         RandomGeoSampler.create regions s2 len ∧
       GridGeoSampler.create regions s1 st1 =
         GridGeoSampler.create regions s2 st2) := by
  refine ⟨fun y x => ⟨rfl, rfl, rfl⟩, fun n => ⟨rfl, rfl⟩, ?_⟩
  intro s1 s2 h st1 st2 hst regions len
  constructor
  · cases regions with
    | nil => rfl
    | cons r rs => simp only [RandomGeoSampler.create, h]
  · cases regions with
    | nil => rfl
    | cons r rs => simp only [GridGeoSampler.create, h, hst]

/-- Witness for C7: `size=3` (scalar int) versus `size=(3.0, 3)` (mixed
float/int pair), and `stride=3` (scalar int) versus `stride=(3, 3.0)`
(mixed int/float pair), build identical samplers over the fixture
index. -/
theorem sizeParam_five_forms_equivalent_witness :
    RandomGeoSampler.create demoRegions (SizeParam.scalar (PyNum.int 3)) 10 =
      RandomGeoSampler.create demoRegions
        (SizeParam.pair (PyNum.float 3) (PyNum.int 3)) 10 ∧
    GridGeoSampler.create demoRegions (SizeParam.scalar (PyNum.int 3))
        (SizeParam.scalar (PyNum.int 3)) =
      GridGeoSampler.create demoRegions
        (SizeParam.pair (PyNum.float 3) (PyNum.int 3))
        (SizeParam.pair (PyNum.int 3) (PyNum.float 3)) :=
  sizeParam_five_forms_equivalent.2.2 (SizeParam.scalar (PyNum.int 3))
    (SizeParam.pair (PyNum.float 3) (PyNum.int 3))
    (by norm_num [toTuple, PyNum.toRat])
    (SizeParam.scalar (PyNum.int 3))
    (SizeParam.pair (PyNum.int 3) (PyNum.float 3))
    (by norm_num [toTuple, PyNum.toRat]) demoRegions 10

/-- C8: Attempting to construct the abstract base GeoSampler directly
fails at construction time with an error of kind
AbstractInstantiationError — while the test suite's CustomGeoSampler,
which implements both contract hooks, constructs successfully. -/
theorem geoSampler_abstract_instantiation :
    instantiateSampler geoSamplerBase =
      Except.error SamplerError.abstractInstantiation ∧
    instantiateSampler customGeoSampler = Except.ok customGeoSampler := by
  constructor
  · simp [instantiateSampler, geoSamplerBase]
  · simp [instantiateSampler, customGeoSampler]

namespace Pastis

/-- C9: collate_fn requires a non-empty batch (it unconditionally reads
batch[0] and fails on an empty list); for every non-empty batch (whose
samples carry the keys the code reads) it returns a dict whose "image"
and "mask" entries are the per-sample values in batch order, and which
contains the "boxes" and "label" keys if and only if the first sample
of the batch contains a "boxes" key — later samples are not consulted
for this decision. -/
theorem collate_fn_spec {α : Type} :
    (collate_fn ([] : List (Sample α)) =
      Except.error PyError.indexError) ∧
    (∀ (first : Sample α) (rest : List (Sample α)) (imgs masks : List α),
       imgs.map some = (first :: rest).map Sample.image →
       masks.map some = (first :: rest).map Sample.mask →
       first.boxes.isSome = false →
       collate_fn (first :: rest) = Except.ok ⟨imgs, masks, none, none⟩) ∧
    (∀ (first : Sample α) (rest : List (Sample α))
       (imgs masks bs ls : List α),
       imgs.map some = (first :: rest).map Sample.image →
       masks.map some = (first :: rest).map Sample.mask →
       bs.map some = (first :: rest).map Sample.boxes →
       ls.map some = (first :: rest).map Sample.label →
       collate_fn (first :: rest) =
         Except.ok ⟨imgs, masks, some bs, some ls⟩) := by
  refine ⟨rfl, ?_, ?_⟩
  · intro first rest imgs masks hi hm hb
    have h1 := gatherKey_eq_ok Sample.image (first :: rest) imgs hi
    have h2 := gatherKey_eq_ok Sample.mask (first :: rest) masks hm
    unfold collate_fn
    rw [h1, except_bind_ok, h2, except_bind_ok]
    dsimp only
    rw [if_neg]
    simp [hb]
  · intro first rest imgs masks bs ls hi hm hbs hls
    have h1 := gatherKey_eq_ok Sample.image (first :: rest) imgs hi
    have h2 := gatherKey_eq_ok Sample.mask (first :: rest) masks hm
    have h3 := gatherKey_eq_ok Sample.boxes (first :: rest) bs hbs
    have h4 := gatherKey_eq_ok Sample.label (first :: rest) ls hls
    have hb : first.boxes.isSome = true := by
      cases bs with
      | nil => simp at hbs
      | cons b bs =>
        simp only [List.map_cons, List.cons.injEq] at hbs
        rw [← hbs.1]
        rfl
    unfold collate_fn
    rw [h1, except_bind_ok, h2, except_bind_ok]
    dsimp only
    rw [if_pos hb, h3, except_bind_ok, h4, except_bind_ok]

/-- Witness for C9: a two-sample batch with boxes collates into
per-sample lists in order; a batch whose first sample lacks boxes
collates without "boxes"/"label" even though its second sample has
them. -/
theorem collate_fn_spec_witness :
    (collate_fn ([] : List (Sample ℕ)) =
      Except.error PyError.indexError) ∧
    collate_fn [(⟨some 1, some 2, some 3, some 4⟩ : Sample ℕ),
        ⟨some 5, some 6, some 7, some 8⟩] =
      Except.ok ⟨[1, 5], [2, 6], some [3, 7], some [4, 8]⟩ ∧
    collate_fn [(⟨some 1, some 2, none, none⟩ : Sample ℕ),
        ⟨some 5, some 6, some 7, some 8⟩] =
      Except.ok ⟨[1, 5], [2, 6], none, none⟩ :=
  ⟨collate_fn_spec.1,
   collate_fn_spec.2.2 ⟨some 1, some 2, some 3, some 4⟩
     [⟨some 5, some 6, some 7, some 8⟩] [1, 5] [2, 6] [3, 7] [4, 8]
     rfl rfl rfl rfl,
   collate_fn_spec.2.1 ⟨some 1, some 2, none, none⟩
     [⟨some 5, some 6, some 7, some 8⟩] [1, 5] [2, 6] rfl rfl rfl⟩

/-- C10: Constructing a PASTISInstanceSegmentationDataModule with a
"folds" keyword argument removes that key from kwargs before delegating
to the base constructor, so the stored kwargs never contain "folds" and
each dataset construction in setup receives the folds argument exactly
once (from train_folds/val_folds/test_folds); the base PASTISDataModule
constructor only warns about a "folds" key and does not remove it. -/
theorem instance_init_removes_folds {β : Type}
    (kwargs : List (String × β)) (v : β)
    (hk : hasKey "folds" kwargs = true) :
    hasKey "folds" (pastisInstanceSegmentationInit kwargs).kwargs = false ∧
    countKey "folds"
      (setupDatasetArgs (pastisInstanceSegmentationInit kwargs) v) = 1 ∧
    (pastisDataModuleInit kwargs).kwargs = kwargs ∧
    (pastisDataModuleInit kwargs).warnedFolds = true := by
  have hdel : (pastisInstanceSegmentationInit kwargs).kwargs =
      delKey "folds" kwargs := by
    simp [pastisInstanceSegmentationInit, hk, pastisDataModuleInit]
  have hfilter : (delKey "folds" kwargs).filter
      (fun p => p.1 == "folds") = [] := by
    rw [List.filter_eq_nil_iff]
    intro p hp
    rw [delKey, List.mem_filter] at hp
    simp only [Bool.not_eq_eq_eq_not, Bool.not_true] at hp
    simp [hp.2]
  refine ⟨?_, ?_, rfl, by simp [pastisDataModuleInit, hk]⟩
  · rw [hdel]
    rw [hasKey, List.any_eq_false]
    intro p hp
    rw [delKey, List.mem_filter] at hp
    simp only [Bool.not_eq_eq_eq_not, Bool.not_true] at hp
    simp [hp.2]
  · rw [setupDatasetArgs, hdel, countKey, List.filter_append, hfilter]
    simp

/-- Witness for C10: kwargs ["folds" ↦ 0, "root" ↦ 1] lose their
"folds" key in the instance-segmentation constructor, each setup
dataset construction passes folds exactly once, and the base
constructor keeps the key while warning. -/
theorem instance_init_removes_folds_witness :
    hasKey "folds" (pastisInstanceSegmentationInit
      [("folds", (0 : ℕ)), ("root", 1)]).kwargs = false ∧
    countKey "folds" (setupDatasetArgs
      (pastisInstanceSegmentationInit [("folds", (0 : ℕ)), ("root", 1)])
      2) = 1 ∧
    (pastisDataModuleInit [("folds", (0 : ℕ)), ("root", 1)]).kwargs =
      [("folds", (0 : ℕ)), ("root", 1)] ∧
    (pastisDataModuleInit
      [("folds", (0 : ℕ)), ("root", 1)]).warnedFolds = true :=
  instance_init_removes_folds [("folds", (0 : ℕ)), ("root", 1)] 2 rfl

end Pastis

end TorchGeo
